import Mathlib

/-!
Verification of the generation pipeline of `backend/services/ai_service.py`
(quiz / flashcard generation with retries, validation and deduplication).

The Python module is embedded shallowly:

* Parsed JSON values (what `json.loads` yields) are the inductive `PyVal`;
  Python dicts are association lists `PyDict`.
* The external world — what the text-generation client's raw output parses
  to on each attempt — is an explicit parameter: `resp : Nat → Option PyDict`
  for single-MCQ mode (attempt `n` yields a parsed JSON object, or `none`
  when the client is unavailable, returned no output, the regex found no
  object, or `json.loads` failed — all of which the code maps to `{}`),
  and `Option (List PyVal)` for the single flashcard batch call.
* The retrieval collaborator's result is a list of chunks, each carrying an
  optional `text` string (its contract per the module's usage).
* Returned envelopes are modelled as the Python dicts the code builds, so
  that presence/absence of fields such as `message` is faithfully visible.
* Both public functions are instrumented: `generate_quizR` /
  `generate_flashcardsR` also return the number of client invocations and
  of retrieval calls made.
-/

/-- A parsed Python value as produced by `json.loads`: strings, integers,
booleans, `None`, lists and string-keyed dicts. -/
inductive PyVal : Type where
  | pstr : String → PyVal
  | pint : Int → PyVal
  | pbool : Bool → PyVal
  | pnone : PyVal
  | plist : List PyVal → PyVal
  | pdict : List (String × PyVal) → PyVal

/-- A Python dict with string keys, as an association list. -/
abbrev PyDict := List (String × PyVal)

/-- Python `d.get(k)`: the value stored at `k`, if any. -/
def pyGet (d : PyDict) (k : String) : Option PyVal := d.lookup k

/-- Python `isinstance(v, str)`. -/
def isStr : PyVal → Bool
  | .pstr _ => true
  | _ => false

/-- Python `isinstance(v, list)`. -/
def isList : PyVal → Bool
  | .plist _ => true
  | _ => false

/-- Python `isinstance(v, int)`. Python booleans are instances of `int`. -/
def isInt : PyVal → Bool
  | .pint _ => true
  | .pbool _ => true
  | _ => false

/-- `len` of a Python list value (only consulted under an `isList` guard,
mirroring the short-circuit of the `and` chain in the source). -/
def listLen : PyVal → Nat
  | .plist xs => xs.length
  | _ => 0

/-- `DIFFICULTY_QUESTION_COUNT` (ai_service.py lines 56-60). -/
def DIFFICULTY_QUESTION_COUNT : List (String × Nat) :=
  [("easy", 5), ("medium", 8), ("hard", 10)]

/-- `FLASHCARD_COUNT = DIFFICULTY_QUESTION_COUNT` (line 62). -/
def FLASHCARD_COUNT : List (String × Nat) := DIFFICULTY_QUESTION_COUNT

/-- `DIFFICULTY_QUESTION_COUNT.get(difficulty, 8)` (line 208). -/
def difficultyCount (d : String) : Nat :=
  (DIFFICULTY_QUESTION_COUNT.lookup d).getD 8

/-- `FLASHCARD_COUNT.get(difficulty, 8)` (line 253). -/
def flashcardCount (d : String) : Nat :=
  (FLASHCARD_COUNT.lookup d).getD 8

/-- The shape condition `_generate_mcq_from_context` checks on parsed data
(lines 121-127): `question` a string, `options` a list of length exactly 4,
`correct_index` an `isinstance`-int, `explanation` a string. -/
def acceptedShape (m : PyDict) : Bool :=
  match pyGet m "question", pyGet m "options",
        pyGet m "correct_index", pyGet m "explanation" with
  | some q, some o, some ci, some ex =>
      isStr q && isList o && (listLen o == 4) && isInt ci && isStr ex
  | _, _, _, _ => false

/-- Validation step of `_generate_mcq_from_context` (lines 121-130): the
parsed object is returned whole when it passes `acceptedShape`, otherwise
discarded (the code returns `{}`, modelled as `none`). -/
def validateMCQ (data : PyDict) : Option PyDict :=
  if acceptedShape data then some data else none

/-- Python `str.strip()`: the string without leading and trailing
whitespace. -/
def pyStrip (s : String) : String :=
  String.mk
    (((s.data.dropWhile Char.isWhitespace).reverse.dropWhile
      Char.isWhitespace).reverse)

/-- Python `str.lower()`. -/
def pyLower (s : String) : String :=
  String.mk (s.data.map Char.toLower)

/-- `mcq["question"].strip().lower()` (line 228): the deduplication key of an
accepted artifact.  On validated artifacts `"question"` is always a string. -/
def mcqKey (m : PyDict) : String :=
  pyLower (pyStrip (match pyGet m "question" with
   | some (.pstr s) => s
   | _ => ""))

/-- The retry loop of `generate_quiz` (lines 218-233).  `resp n` is the parsed
object obtained from the client on attempt `n` (`none` when
`_generate_mcq_from_context` produced `{}` before shape validation); the
fuel argument is the remaining attempts, so the loop is entered with
`count * 4` and the returned `Nat` is the total attempts used. -/
def quizLoop (resp : Nat → Option PyDict) (count : Nat) :
    List PyDict → List String → Nat → Nat → List PyDict × Nat
  | questions, _asked, attempts, 0 => (questions, attempts)
  | questions, asked, attempts, r + 1 =>
    if count ≤ questions.length then (questions, attempts)
    else
      match (resp attempts).bind validateMCQ with
      | none => quizLoop resp count questions asked (attempts + 1) r
      | some mcq =>
        if mcqKey mcq ∈ asked then
          quizLoop resp count questions asked (attempts + 1) r
        else
          quizLoop resp count (questions ++ [mcq]) (mcqKey mcq :: asked)
            (attempts + 1) r

/-- `" ".join(c.get("text", "") for c in chunks if c.get("text"))`
(lines 211 and 256): chunks whose `text` is absent or empty are skipped and
the remaining texts are joined with single spaces. -/
def assembleContext (chunks : List (Option String)) : String :=
  String.intercalate " " ((chunks.filterMap id).filter (fun t => t ≠ ""))

/-- `_empty_quiz` (lines 284-289). -/
def empty_quiz (message : String) : PyDict :=
  [("success", .pbool false), ("message", .pstr message),
   ("questions", .plist [])]

/-- `generate_quiz` (lines 204-242), instrumented: the result triple is the
returned envelope, the number of client invocations (loop attempts), and the
number of retrieval calls.  `difficultyCount difficulty` is the `count` of
line 208 and `count * 4` the `max_attempts` of line 219. -/
def generate_quizR (ragAvailable : Bool) (chunks : List (Option String))
    (difficulty : String) (resp : Nat → Option PyDict) :
    PyDict × Nat × Nat :=
  if ragAvailable = false then
    (empty_quiz "Document service not available", 0, 0)
  else if (assembleContext chunks).length < 200 then
    (empty_quiz "Insufficient content", 0, 1)
  else if (quizLoop resp (difficultyCount difficulty) [] [] 0
      (difficultyCount difficulty * 4)).1.isEmpty then
    (empty_quiz "MCQ generation failed",
     (quizLoop resp (difficultyCount difficulty) [] [] 0
       (difficultyCount difficulty * 4)).2, 1)
  else
    ([("success", PyVal.pbool true), ("difficulty", PyVal.pstr difficulty),
      ("questions", PyVal.plist
        ((quizLoop resp (difficultyCount difficulty) [] [] 0
          (difficultyCount difficulty * 4)).1.map PyVal.pdict))],
     (quizLoop resp (difficultyCount difficulty) [] [] 0
       (difficultyCount difficulty * 4)).2, 1)

/-- The envelope alone returned by `generate_quiz`. -/
def generate_quiz (ragAvailable : Bool) (chunks : List (Option String))
    (difficulty : String) (resp : Nat → Option PyDict) : PyDict :=
  (generate_quizR ragAvailable chunks difficulty resp).1

/-- The question dicts stored in an envelope's `questions` field. -/
def envQuestions (env : PyDict) : List PyDict :=
  match pyGet env "questions" with
  | some (.plist l) =>
      l.filterMap fun v => match v with | .pdict m => some m | _ => none
  | _ => []

mutual

/-- Python `repr` of a parsed value (what `str` falls back to for non-string
values). -/
def pyRepr : PyVal → String
  | .pstr s => "\x27" ++ s ++ "\x27"
  | .pint n => toString n
  | .pbool b => if b then "True" else "False"
  | .pnone => "None"
  | .plist xs => "[" ++ pyReprList xs ++ "]"
  | .pdict kvs => "\x7b" ++ pyReprDict kvs ++ "\x7d"

/-- Comma-separated `repr`s of a list's elements. -/
def pyReprList : List PyVal → String
  | [] => ""
  | [x] => pyRepr x
  | x :: y :: xs => pyRepr x ++ ", " ++ pyReprList (y :: xs)

/-- Comma-separated `key: value` `repr`s of a dict's items. -/
def pyReprDict : List (String × PyVal) → String
  | [] => ""
  | [(k, v)] => "\x27" ++ k ++ "\x27: " ++ pyRepr v
  | (k, v) :: y :: xs =>
      "\x27" ++ k ++ "\x27: " ++ pyRepr v ++ ", " ++ pyReprDict (y :: xs)

end

/-- Python `str(v)`, as applied to `card.get("front", "")` (lines 183-184). -/
def pyStr : PyVal → String
  | .pstr s => s
  | v => pyRepr v

/-- A flashcard as assembled on lines 186-191: the canonical `front`/`back`
strings duplicated under the alias keys `question`/`answer`. -/
structure Flashcard where
  question : String
  answer : String
  front : String
  back : String
deriving DecidableEq

/-- Handling of one element of the parsed array (lines 182-191):
`str(card.get(...)).strip()` for both fields, the card kept only when both
are non-empty.  A non-dict element makes `card.get` raise, which the outer
handler turns into `[]`; that is the outer `none`. -/
def cardOf : PyVal → Option (Option Flashcard)
  | .pdict kvs =>
      some (
        if pyStrip (pyStr ((pyGet kvs "front").getD (.pstr ""))) ≠ "" ∧
           pyStrip (pyStr ((pyGet kvs "back").getD (.pstr ""))) ≠ "" then
          some { question := pyStrip (pyStr ((pyGet kvs "front").getD (.pstr "")))
                 answer := pyStrip (pyStr ((pyGet kvs "back").getD (.pstr "")))
                 front := pyStrip (pyStr ((pyGet kvs "front").getD (.pstr "")))
                 back := pyStrip (pyStr ((pyGet kvs "back").getD (.pstr ""))) }
        else none)
  | _ => none

/-- The collection loop over the parsed array (lines 181-193) together with
the surrounding `try`: `none` when some element raises (the handler then
returns `[]`), otherwise the kept cards in order. -/
def collectCards : List PyVal → Option (List Flashcard)
  | [] => some []
  | v :: vs =>
    match cardOf v, collectCards vs with
    | some oc, some rest => some (oc.toList ++ rest)
    | _, _ => none

/-- `_generate_flashcards_from_context` (lines 141-197) from the parsed-array
stage on: `resp = none` covers client unavailability, a raw text without a
JSON array, a parse error, or an API failure — each of which the code turns
into `[]`. -/
def flashcards_from_context (resp : Option (List PyVal)) : List Flashcard :=
  match resp with
  | none => []
  | some data => (collectCards data).getD []

/-- The dict a flashcard is stored as (lines 186-191). -/
def cardToPy (c : Flashcard) : PyVal :=
  .pdict [("question", .pstr c.question), ("answer", .pstr c.answer),
          ("front", .pstr c.front), ("back", .pstr c.back)]

/-- `generate_flashcards` (lines 249-266), instrumented like
`generate_quizR`: envelope, client batch invocations, retrieval calls.
`flashcardCount difficulty` (line 253) only sizes the prompt, so it does not
appear in the observable behaviour. -/
def generate_flashcardsR (ragAvailable : Bool) (chunks : List (Option String))
    (difficulty : String) (resp : Option (List PyVal)) :
    PyDict × Nat × Nat :=
  if ragAvailable = false then
    ([("success", .pbool false), ("flashcards", .plist [])], 0, 0)
  else if (assembleContext chunks).length < 200 then
    ([("success", .pbool false), ("flashcards", .plist [])], 0, 1)
  else
    ([("success", PyVal.pbool true), ("difficulty", PyVal.pstr difficulty),
      ("flashcards", PyVal.plist
        ((flashcards_from_context resp).map cardToPy))], 1, 1)

/-- The envelope alone returned by `generate_flashcards`. -/
def generate_flashcards (ragAvailable : Bool) (chunks : List (Option String))
    (difficulty : String) (resp : Option (List PyVal)) : PyDict :=
  (generate_flashcardsR ragAvailable chunks difficulty resp).1

/-- The spec's `QuestionArtifact` shape, written from spec.md §3 for
comparison with `acceptedShape`: question a string, options a sequence of
exactly 4 *strings*, correctIndex an integer *in [0,3]*, explanation a
string. -/
def specQuestionShape (m : PyDict) : Bool :=
  (match pyGet m "question" with
   | some (.pstr _) => true
   | _ => false) &&
  (match pyGet m "options" with
   | some (.plist xs) => (xs.length == 4) && xs.all isStr
   | _ => false) &&
  (match pyGet m "correct_index" with
   | some (.pint n) => decide (0 ≤ n ∧ n ≤ 3)
   | _ => false) &&
  (match pyGet m "explanation" with
   | some (.pstr _) => true
   | _ => false)

/-! Concrete fixtures used by counterexamples and witnesses. -/

/-- A retrieval result whose assembled context is 200 characters long. -/
def okChunks : List (Option String) := [some (String.mk (List.replicate 200 'a'))]

/-- A parsed model response that passes the code's shape check although its
options are integers and its `correct_index` is 9. -/
def badMcq : PyDict :=
  [("question", .pstr "Which?"),
   ("options", .plist [.pint 1, .pint 2, .pint 3, .pint 4]),
   ("correct_index", .pint 9),
   ("explanation", .pstr "because")]

/-- A fully well-formed parsed model response. -/
def goodMcq : PyDict :=
  [("question", .pstr "What is X?"),
   ("options", .plist [.pstr "a", .pstr "b", .pstr "c", .pstr "d"]),
   ("correct_index", .pint 1),
   ("explanation", .pstr "since")]

/-- A client that yields `badMcq` on the first attempt and nothing after. -/
def respBad : Nat → Option PyDict :=
  fun n => if n = 0 then some badMcq else none

/-- A client that yields `goodMcq` on the first attempt and nothing after. -/
def respGood : Nat → Option PyDict :=
  fun n => if n = 0 then some goodMcq else none

/-- A parsed flashcard batch: one well-formed card with padding around its
front text, one card with an empty back (dropped). -/
def okBatch : List PyVal :=
  [.pdict [("front", .pstr " Q1 "), ("back", .pstr "A1")],
   .pdict [("front", .pstr "Q2"), ("back", .pstr "  ")]]

/-! ### Lemmas about flashcard extraction -/

theorem cardOf_kept {v : PyVal} {c : Flashcard} (h : cardOf v = some (some c)) :
    c.question = c.front ∧ c.answer = c.back ∧ c.front ≠ "" ∧ c.back ≠ "" := by
  cases v with
  | pdict kvs =>
    simp only [cardOf, Option.some_inj] at h
    split at h
    next hne =>
      injection h with h2
      subst h2
      exact ⟨rfl, rfl, hne.1, hne.2⟩
    next => cases h
  | pstr s => simp [cardOf] at h
  | pint n => simp [cardOf] at h
  | pbool b => simp [cardOf] at h
  | pnone => simp [cardOf] at h
  | plist xs => simp [cardOf] at h

theorem collectCards_mem {data : List PyVal} {cards : List Flashcard}
    (h : collectCards data = some cards) :
    ∀ c ∈ cards, ∃ v ∈ data, cardOf v = some (some c) := by
  induction data generalizing cards with
  | nil =>
    simp only [collectCards, Option.some_inj] at h
    subst h
    simp
  | cons v vs ih =>
    simp only [collectCards] at h
    split at h
    next oc rest hoc hrest =>
      injection h with h2
      subst h2
      intro c hc
      rcases List.mem_append.mp hc with h1 | h1
      · cases oc with
        | none => simp [Option.toList] at h1
        | some c0 =>
          simp only [Option.toList] at h1
          obtain rfl := List.mem_singleton.mp h1
          exact ⟨v, List.mem_cons_self _ _, hoc⟩
      · obtain ⟨w, hw, hcw⟩ := ih hrest c h1
        exact ⟨w, List.mem_cons_of_mem _ hw, hcw⟩
    next => cases h

theorem flashcards_from_context_kept (resp : Option (List PyVal)) :
    ∀ c ∈ flashcards_from_context resp,
      c.question = c.front ∧ c.answer = c.back ∧ c.front ≠ "" ∧ c.back ≠ "" := by
  intro c hc
  cases resp with
  | none => simp [flashcards_from_context] at hc
  | some data =>
    simp only [flashcards_from_context] at hc
    cases hcol : collectCards data with
    | none => rw [hcol] at hc; simp at hc
    | some cards =>
      rw [hcol] at hc
      obtain ⟨v, _, hv⟩ := collectCards_mem hcol c (by simpa using hc)
      exact cardOf_kept hv

/-! ### Lemmas about envelopes -/

theorem envQuestions_empty (msg : String) : envQuestions (empty_quiz msg) = [] := by
  simp [envQuestions, empty_quiz, pyGet, List.lookup]

theorem envQuestions_success (d : String) (l : List PyDict) :
    envQuestions
      [("success", PyVal.pbool true), ("difficulty", PyVal.pstr d),
       ("questions", PyVal.plist (l.map PyVal.pdict))] = l := by
  show List.filterMap
    (fun v => match v with | PyVal.pdict m => some m | _ => none)
    (l.map PyVal.pdict) = l
  induction l with
  | nil => rfl
  | cons x xs ih =>
    rw [List.map_cons, List.filterMap_cons]
    exact congrArg (x :: ·) ih

/-! ### Lemmas about the difficulty table -/

theorem flashcardCount_eq (d : String) : flashcardCount d = difficultyCount d := rfl

theorem difficultyCount_default (d : String) (h1 : d ≠ "easy")
    (h2 : d ≠ "medium") (h3 : d ≠ "hard") : difficultyCount d = 8 := by
  simp [difficultyCount, DIFFICULTY_QUESTION_COUNT, List.lookup,
    beq_eq_false_iff_ne.mpr h1, beq_eq_false_iff_ne.mpr h2,
    beq_eq_false_iff_ne.mpr h3]

theorem difficultyCount_pos (d : String) : 0 < difficultyCount d := by
  by_cases h1 : d = "easy"
  · subst h1; decide
  by_cases h2 : d = "medium"
  · subst h2; decide
  by_cases h3 : d = "hard"
  · subst h3; decide
  rw [difficultyCount_default d h1 h2 h3]; omega

/-! ### Lemmas about the retry loop -/

theorem quizLoop_attempts_le (resp : Nat → Option PyDict) (count : Nat) :
    ∀ r qs asked a, (quizLoop resp count qs asked a r).2 ≤ a + r := by
  intro r
  induction r with
  | zero => intro qs asked a; simp [quizLoop]
  | succ r ih =>
    intro qs asked a
    simp only [quizLoop]
    split
    · exact Nat.le_add_right a (r + 1)
    · split
      next hm =>
        have := ih qs asked (a + 1)
        omega
      next mcq hm =>
        split
        next hmem =>
          have := ih qs asked (a + 1)
          omega
        next hmem =>
          have := ih (qs ++ [mcq]) (mcqKey mcq :: asked) (a + 1)
          omega

theorem quizLoop_none (resp : Nat → Option PyDict) (count : Nat)
    (hresp : ∀ n, resp n = none) (hc : 0 < count) :
    ∀ r asked a, quizLoop resp count [] asked a r = ([], a + r) := by
  intro r
  induction r with
  | zero => intro asked a; simp [quizLoop]
  | succ r ih =>
    intro asked a
    have hlt : ¬ count ≤ ([] : List PyDict).length := by
      simp only [List.length_nil, Nat.le_zero]
      omega
    simp only [quizLoop, hresp, Option.none_bind, if_neg hlt]
    rw [ih asked (a + 1)]
    exact congrArg _ (by omega)

theorem validateMCQ_eq_some {d m : PyDict} (h : validateMCQ d = some m) :
    m = d ∧ acceptedShape d = true := by
  unfold validateMCQ at h
  by_cases hb : acceptedShape d = true
  · rw [if_pos hb] at h
    exact ⟨(Option.some_inj.mp h).symm, hb⟩
  · rw [if_neg hb] at h
    cases h

theorem quizLoop_shape (resp : Nat → Option PyDict) (count : Nat) :
    ∀ r qs asked a, (∀ m ∈ qs, acceptedShape m = true) →
      ∀ m ∈ (quizLoop resp count qs asked a r).1, acceptedShape m = true := by
  intro r
  induction r with
  | zero => intro qs asked a hqs; simpa [quizLoop] using hqs
  | succ r ih =>
    intro qs asked a hqs
    simp only [quizLoop]
    split
    · simpa using hqs
    · split
      next hm => exact ih qs asked (a + 1) hqs
      next mcq hm =>
        split
        next hmem => exact ih qs asked (a + 1) hqs
        next hmem =>
          refine ih _ _ (a + 1) ?_
          intro m hmem2
          rcases List.mem_append.mp hmem2 with h | h
          · exact hqs m h
          · obtain rfl := List.mem_singleton.mp h
            obtain ⟨d, _, hv⟩ := Option.bind_eq_some.mp hm
            obtain ⟨rfl, hsh⟩ := validateMCQ_eq_some hv
            exact hsh

theorem quizLoop_nodup (resp : Nat → Option PyDict) (count : Nat) :
    ∀ r qs asked a, (∀ q ∈ qs, mcqKey q ∈ asked) → (qs.map mcqKey).Nodup →
      ((quizLoop resp count qs asked a r).1.map mcqKey).Nodup := by
  intro r
  induction r with
  | zero => intro qs asked a _ hnd; simpa [quizLoop] using hnd
  | succ r ih =>
    intro qs asked a hsub hnd
    simp only [quizLoop]
    split
    · simpa using hnd
    · split
      next hm => exact ih qs asked (a + 1) hsub hnd
      next mcq hm =>
        split
        next hmem => exact ih qs asked (a + 1) hsub hnd
        next hmem =>
          refine ih _ _ (a + 1) ?_ ?_
          · intro q hq
            rcases List.mem_append.mp hq with h | h
            · exact List.mem_cons_of_mem _ (hsub q h)
            · obtain rfl := List.mem_singleton.mp h
              exact List.mem_cons_self _ _
          · rw [List.map_append, List.nodup_append]
            refine ⟨hnd, List.nodup_singleton _, ?_⟩
            intro k hk hk2
            obtain rfl := List.mem_singleton.mp hk2
            rcases List.mem_map.mp hk with ⟨q, hq, hkey⟩
            exact hmem (hkey ▸ hsub q hq)

/-! ### Branch characterizations of the public functions -/

theorem generate_quizR_insufficient (chunks : List (Option String))
    (d : String) (resp : Nat → Option PyDict)
    (hlen : (assembleContext chunks).length < 200) :
    generate_quizR true chunks d resp =
      (empty_quiz "Insufficient content", 0, 1) := by
  unfold generate_quizR
  rw [if_neg (show ¬ (true = false) by simp), if_pos hlen]

theorem generate_quizR_exhausted (chunks : List (Option String))
    (d : String) (resp : Nat → Option PyDict)
    (hlen : ¬ (assembleContext chunks).length < 200)
    (hempty :
      (quizLoop resp (difficultyCount d) [] [] 0 (difficultyCount d * 4)).1
        = []) :
    generate_quizR true chunks d resp =
      (empty_quiz "MCQ generation failed",
       (quizLoop resp (difficultyCount d) [] [] 0
         (difficultyCount d * 4)).2, 1) := by
  unfold generate_quizR
  rw [if_neg (show ¬ (true = false) by simp), if_neg hlen,
    if_pos (by rw [hempty]; rfl)]

theorem generate_quizR_success (chunks : List (Option String))
    (d : String) (resp : Nat → Option PyDict)
    (hlen : ¬ (assembleContext chunks).length < 200)
    (hne :
      (quizLoop resp (difficultyCount d) [] [] 0 (difficultyCount d * 4)).1
        ≠ []) :
    generate_quizR true chunks d resp =
      ([("success", PyVal.pbool true), ("difficulty", PyVal.pstr d),
        ("questions", PyVal.plist
          ((quizLoop resp (difficultyCount d) [] [] 0
            (difficultyCount d * 4)).1.map PyVal.pdict))],
       (quizLoop resp (difficultyCount d) [] [] 0
         (difficultyCount d * 4)).2, 1) := by
  unfold generate_quizR
  rw [if_neg (show ¬ (true = false) by simp), if_neg hlen,
    if_neg (by simpa [List.isEmpty_iff] using hne)]

theorem generate_flashcardsR_insufficient (chunks : List (Option String))
    (d : String) (fresp : Option (List PyVal))
    (hlen : (assembleContext chunks).length < 200) :
    generate_flashcardsR true chunks d fresp =
      ([("success", .pbool false), ("flashcards", .plist [])], 0, 1) := by
  unfold generate_flashcardsR
  rw [if_neg (show ¬ (true = false) by simp), if_pos hlen]

theorem generate_flashcardsR_ok (chunks : List (Option String))
    (d : String) (fresp : Option (List PyVal))
    (hlen : ¬ (assembleContext chunks).length < 200) :
    generate_flashcardsR true chunks d fresp =
      ([("success", PyVal.pbool true), ("difficulty", PyVal.pstr d),
        ("flashcards", PyVal.plist
          ((flashcards_from_context fresp).map cardToPy))], 1, 1) := by
  unfold generate_flashcardsR
  rw [if_neg (show ¬ (true = false) by simp), if_neg hlen]

/-! ### Claim theorems -/

/-- Claim C3: for every generation call, the target count is determined by
difficulty via the fixed table easy=5, medium=8, hard=10, and any
unrecognized difficulty maps to 8, for both `generate_quiz`
(`difficultyCount`, used by `generate_quizR`) and `generate_flashcards`
(`flashcardCount`). -/
theorem C3_difficulty_table :
    difficultyCount "easy" = 5 ∧ difficultyCount "medium" = 8 ∧
    difficultyCount "hard" = 10 ∧
    flashcardCount "easy" = 5 ∧ flashcardCount "medium" = 8 ∧
    flashcardCount "hard" = 10 ∧
    ∀ d : String, d ≠ "easy" → d ≠ "medium" → d ≠ "hard" →
      difficultyCount d = 8 ∧ flashcardCount d = 8 := by
  refine ⟨rfl, rfl, rfl, rfl, rfl, rfl, ?_⟩
  intro d h1 h2 h3
  rw [flashcardCount_eq, difficultyCount_default d h1 h2 h3]
  exact ⟨rfl, rfl⟩

/-- Witness for C3 at the concrete unrecognized difficulty "expert". -/
theorem C3_difficulty_table_witness :
    difficultyCount "expert" = 8 ∧ flashcardCount "expert" = 8 :=
  C3_difficulty_table.2.2.2.2.2.2 "expert" (by decide) (by decide) (by decide)

/-- Claim C10: when the RAG retrieval service failed to import,
`generate_quiz` returns success false with message "Document service not
available" and empty questions, `generate_flashcards` returns success false
with empty flashcards, and neither makes a retrieval call or a client
invocation. -/
theorem C10_rag_unavailable (chunks : List (Option String)) (d : String)
    (resp : Nat → Option PyDict) (fresp : Option (List PyVal)) :
    generate_quizR false chunks d resp =
      ([("success", .pbool false),
        ("message", .pstr "Document service not available"),
        ("questions", .plist [])], 0, 0) ∧
    generate_flashcardsR false chunks d fresp =
      ([("success", .pbool false), ("flashcards", .plist [])], 0, 0) :=
  ⟨rfl, rfl⟩

/-- Claim C5: the question sequence of every `generate_quiz` result contains
no two elements whose question texts are equal after trimming and
lower-casing (`mcqKey`). -/
theorem C5_no_duplicate_questions (rag : Bool) (chunks : List (Option String))
    (d : String) (resp : Nat → Option PyDict) :
    ((envQuestions (generate_quiz rag chunks d resp)).map mcqKey).Nodup := by
  cases rag with
  | false =>
    rw [show generate_quiz false chunks d resp
        = empty_quiz "Document service not available" from rfl,
      envQuestions_empty]
    exact List.nodup_nil
  | true =>
    by_cases hlen : (assembleContext chunks).length < 200
    · unfold generate_quiz
      rw [generate_quizR_insufficient chunks d resp hlen]
      dsimp only
      rw [envQuestions_empty]
      exact List.nodup_nil
    · by_cases hempty :
        (quizLoop resp (difficultyCount d) [] [] 0 (difficultyCount d * 4)).1
          = []
      · unfold generate_quiz
        rw [generate_quizR_exhausted chunks d resp hlen hempty]
        dsimp only
        rw [envQuestions_empty]
        exact List.nodup_nil
      · unfold generate_quiz
        rw [generate_quizR_success chunks d resp hlen hempty]
        dsimp only
        rw [envQuestions_success]
        exact quizLoop_nodup resp (difficultyCount d) (difficultyCount d * 4)
          [] [] 0 (fun q hq => absurd hq (List.not_mem_nil q)) List.nodup_nil

/-- Claim C4: when the context-length precondition holds, the attempt budget
is `difficultyCount d * 4` and `generate_quiz` performs at most that many
client invocations. -/
theorem C4_attempt_budget (chunks : List (Option String)) (d : String)
    (resp : Nat → Option PyDict)
    (hlen : 200 ≤ (assembleContext chunks).length) :
    (generate_quizR true chunks d resp).2.1 ≤ difficultyCount d * 4 := by
  have hnlt : ¬ (assembleContext chunks).length < 200 := by omega
  have hb := quizLoop_attempts_le resp (difficultyCount d)
    (difficultyCount d * 4) [] [] 0
  by_cases hempty :
      (quizLoop resp (difficultyCount d) [] [] 0 (difficultyCount d * 4)).1
        = []
  · rw [generate_quizR_exhausted chunks d resp hnlt hempty]
    dsimp only
    omega
  · rw [generate_quizR_success chunks d resp hnlt hempty]
    dsimp only
    omega

set_option maxRecDepth 10000 in
/-- Witness for C4 at a concrete 200-character context. -/
theorem C4_attempt_budget_witness :
    (generate_quizR true okChunks "easy" respGood).2.1
      ≤ difficultyCount "easy" * 4 :=
  C4_attempt_budget okChunks "easy" respGood (by decide)

/-- Claim C6: when the assembled context text is shorter than 200
characters, `generate_quiz` returns success false with message
"Insufficient content", `generate_flashcards` returns success false, and
neither makes a client invocation. -/
theorem C6_short_circuit (chunks : List (Option String)) (d : String)
    (resp : Nat → Option PyDict) (fresp : Option (List PyVal))
    (hlen : (assembleContext chunks).length < 200) :
    pyGet (generate_quiz true chunks d resp) "success"
      = some (.pbool false) ∧
    pyGet (generate_quiz true chunks d resp) "message"
      = some (.pstr "Insufficient content") ∧
    (generate_quizR true chunks d resp).2.1 = 0 ∧
    pyGet (generate_flashcards true chunks d fresp) "success"
      = some (.pbool false) ∧
    pyGet (generate_flashcards true chunks d fresp) "flashcards"
      = some (.plist []) ∧
    (generate_flashcardsR true chunks d fresp).2.1 = 0 := by
  have hq := generate_quizR_insufficient chunks d resp hlen
  have hf := generate_flashcardsR_insufficient chunks d fresp hlen
  unfold generate_quiz generate_flashcards
  rw [hq, hf]
  exact ⟨rfl, rfl, rfl, rfl, rfl, rfl⟩

/-- Witness for C6 at an empty retrieval result. -/
theorem C6_short_circuit_witness :
    pyGet (generate_quiz true [] "medium" (fun _ => none)) "success"
      = some (.pbool false) ∧
    pyGet (generate_quiz true [] "medium" (fun _ => none)) "message"
      = some (.pstr "Insufficient content") ∧
    (generate_quizR true [] "medium" (fun _ => none)).2.1 = 0 ∧
    pyGet (generate_flashcards true [] "medium" none) "success"
      = some (.pbool false) ∧
    pyGet (generate_flashcards true [] "medium" none) "flashcards"
      = some (.plist []) ∧
    (generate_flashcardsR true [] "medium" none).2.1 = 0 :=
  C6_short_circuit [] "medium" (fun _ => none) none (by decide)

/-- Claim C7: when the client yields no parsed output on any attempt and the
context-length precondition holds, `generate_quiz` fails with message
"MCQ generation failed" after exactly `difficultyCount d * 4` client
invocations. -/
theorem C7_always_no_output (chunks : List (Option String)) (d : String)
    (resp : Nat → Option PyDict)
    (hresp : ∀ n, resp n = none)
    (hlen : 200 ≤ (assembleContext chunks).length) :
    pyGet (generate_quiz true chunks d resp) "success"
      = some (.pbool false) ∧
    pyGet (generate_quiz true chunks d resp) "message"
      = some (.pstr "MCQ generation failed") ∧
    (generate_quizR true chunks d resp).2.1 = difficultyCount d * 4 := by
  have hloop := quizLoop_none resp (difficultyCount d) hresp
    (difficultyCount_pos d) (difficultyCount d * 4) [] 0
  have hnlt : ¬ (assembleContext chunks).length < 200 := by omega
  have hempty :
      (quizLoop resp (difficultyCount d) [] [] 0 (difficultyCount d * 4)).1
        = [] := by
    rw [hloop]
  have hq := generate_quizR_exhausted chunks d resp hnlt hempty
  unfold generate_quiz
  rw [hq, hloop]
  dsimp only
  exact ⟨rfl, rfl, by omega⟩

set_option maxRecDepth 10000 in
/-- Witness for C7 at a concrete 200-character context and a client that
never yields output. -/
theorem C7_always_no_output_witness :
    pyGet (generate_quiz true okChunks "easy" (fun _ => none)) "success"
      = some (.pbool false) ∧
    pyGet (generate_quiz true okChunks "easy" (fun _ => none)) "message"
      = some (.pstr "MCQ generation failed") ∧
    (generate_quizR true okChunks "easy" (fun _ => none)).2.1
      = difficultyCount "easy" * 4 :=
  C7_always_no_output okChunks "easy" (fun _ => none) (fun _ => rfl)
    (by decide)

/-- Claim C8: whenever the retry loop ends with a non-empty accepted list
(possibly fewer than the target), the envelope reports success true and
contains exactly the accepted artifacts. -/
theorem C8_partial_success (chunks : List (Option String)) (d : String)
    (resp : Nat → Option PyDict)
    (hlen : 200 ≤ (assembleContext chunks).length)
    (hne :
      (quizLoop resp (difficultyCount d) [] [] 0 (difficultyCount d * 4)).1
        ≠ []) :
    pyGet (generate_quiz true chunks d resp) "success"
      = some (.pbool true) ∧
    envQuestions (generate_quiz true chunks d resp) =
      (quizLoop resp (difficultyCount d) [] [] 0
        (difficultyCount d * 4)).1 := by
  have hnlt : ¬ (assembleContext chunks).length < 200 := by omega
  have hq := generate_quizR_success chunks d resp hnlt hne
  unfold generate_quiz
  rw [hq]
  dsimp only
  exact ⟨rfl, envQuestions_success d _⟩

set_option maxRecDepth 10000 in
/-- Witness for C8: a client producing one valid artifact of the five
requested still yields a success envelope with that one artifact. -/
theorem C8_partial_success_witness :
    pyGet (generate_quiz true okChunks "easy" respGood) "success"
      = some (.pbool true) ∧
    envQuestions (generate_quiz true okChunks "easy" respGood) =
      (quizLoop respGood (difficultyCount "easy") [] [] 0
        (difficultyCount "easy" * 4)).1 :=
  C8_partial_success okChunks "easy" respGood (by decide)
    (by
      rw [show (quizLoop respGood (difficultyCount "easy") [] [] 0
        (difficultyCount "easy" * 4)).1 = [goodMcq] from rfl]
      simp)

set_option maxRecDepth 10000 in
/-- Counterexample to claim C1 as stated: `badMcq` — whose options are the
integers 1..4 and whose `correct_index` is 9 — is accepted whole into the
result sequence of `generate_quiz`, although it violates the claimed shape
(options four strings, correctIndex in [0,3]). -/
theorem C1_shape_counterexample :
    envQuestions (generate_quiz true okChunks "easy" respBad) = [badMcq] ∧
    specQuestionShape badMcq = false ∧
    acceptedShape badMcq = true :=
  ⟨rfl, rfl, rfl⟩

/-- Claim C1 (amended): every artifact accepted into the result sequence of
`generate_quiz` passes the checks the code makes — `question` a string,
`options` a list of exactly 4 elements (of any type), `correct_index` an
`isinstance`-integer (with no range constraint), `explanation` a string —
and candidates failing any of these are discarded whole. -/
theorem C1_accepted_shape (rag : Bool) (chunks : List (Option String))
    (d : String) (resp : Nat → Option PyDict) :
    ∀ m ∈ envQuestions (generate_quiz rag chunks d resp),
      acceptedShape m = true := by
  cases rag with
  | false =>
    intro m hm
    rw [show generate_quiz false chunks d resp
        = empty_quiz "Document service not available" from rfl,
      envQuestions_empty] at hm
    cases hm
  | true =>
    by_cases hlen : (assembleContext chunks).length < 200
    · intro m hm
      unfold generate_quiz at hm
      rw [generate_quizR_insufficient chunks d resp hlen] at hm
      dsimp only at hm
      rw [envQuestions_empty] at hm
      cases hm
    · by_cases hempty :
        (quizLoop resp (difficultyCount d) [] [] 0 (difficultyCount d * 4)).1
          = []
      · intro m hm
        unfold generate_quiz at hm
        rw [generate_quizR_exhausted chunks d resp hlen hempty] at hm
        dsimp only at hm
        rw [envQuestions_empty] at hm
        cases hm
      · intro m hm
        unfold generate_quiz at hm
        rw [generate_quizR_success chunks d resp hlen hempty] at hm
        dsimp only at hm
        rw [envQuestions_success] at hm
        exact quizLoop_shape resp (difficultyCount d) (difficultyCount d * 4)
          [] [] 0 (fun q hq => absurd hq (List.not_mem_nil q)) m hm

set_option maxRecDepth 10000 in
/-- Witness for C1 (amended) at a concrete accepted artifact. -/
theorem C1_accepted_shape_witness : acceptedShape goodMcq = true :=
  C1_accepted_shape true okChunks "easy" respGood goodMcq
    (by
      rw [show envQuestions (generate_quiz true okChunks "easy" respGood)
        = [goodMcq] from rfl]
      simp)

/-- Counterexample to claim C2 as stated: the failure envelope of
`generate_flashcards` (here: RAG unavailable) reports success false but
carries no `message` field at all. -/
theorem C2_message_counterexample :
    pyGet (generate_flashcards false [] "medium" none) "success"
      = some (.pbool false) ∧
    pyGet (generate_flashcards false [] "medium" none) "message" = none :=
  ⟨rfl, rfl⟩

/-- Claim C2 (amended): both functions are total and return envelopes on
every path (totality is inherent in the embedding); every `generate_quiz`
failure envelope carries a non-empty human-readable `message`, while
`generate_flashcards` failure envelopes carry success false and an empty
`flashcards` list but no `message` field. -/
theorem C2_failure_envelopes (rag : Bool) (chunks : List (Option String))
    (d : String) (resp : Nat → Option PyDict) (fresp : Option (List PyVal)) :
    (pyGet (generate_quiz rag chunks d resp) "success"
        = some (.pbool false) →
      ∃ s, pyGet (generate_quiz rag chunks d resp) "message"
        = some (.pstr s) ∧ s ≠ "") ∧
    (pyGet (generate_flashcards rag chunks d fresp) "success"
        = some (.pbool false) →
      pyGet (generate_flashcards rag chunks d fresp) "flashcards"
        = some (.plist []) ∧
      pyGet (generate_flashcards rag chunks d fresp) "message" = none) := by
  cases rag with
  | false => exact ⟨fun _ => ⟨"Document service not available", rfl, by simp⟩,
      fun _ => ⟨rfl, rfl⟩⟩
  | true =>
    constructor
    · intro hfail
      by_cases hlen : (assembleContext chunks).length < 200
      · unfold generate_quiz
        rw [generate_quizR_insufficient chunks d resp hlen]
        exact ⟨"Insufficient content", rfl, by simp⟩
      · by_cases hempty :
          (quizLoop resp (difficultyCount d) [] [] 0
            (difficultyCount d * 4)).1 = []
        · unfold generate_quiz
          rw [generate_quizR_exhausted chunks d resp hlen hempty]
          exact ⟨"MCQ generation failed", rfl, by simp⟩
        · exfalso
          unfold generate_quiz at hfail
          rw [generate_quizR_success chunks d resp hlen hempty] at hfail
          dsimp only at hfail
          simp [pyGet, List.lookup] at hfail
    · intro hfail
      by_cases hlen : (assembleContext chunks).length < 200
      · unfold generate_flashcards
        rw [generate_flashcardsR_insufficient chunks d fresp hlen]
        exact ⟨rfl, rfl⟩
      · exfalso
        unfold generate_flashcards at hfail
        rw [generate_flashcardsR_ok chunks d fresp hlen] at hfail
        dsimp only at hfail
        simp [pyGet, List.lookup] at hfail

/-- Witness for C2 (amended) at concrete failure envelopes. -/
theorem C2_failure_envelopes_witness :
    (∃ s, pyGet (generate_quiz false [] "medium" (fun _ => none)) "message"
      = some (.pstr s) ∧ s ≠ "") ∧
    (pyGet (generate_flashcards false [] "medium" none) "flashcards"
      = some (.plist []) ∧
     pyGet (generate_flashcards false [] "medium" none) "message" = none) :=
  ⟨(C2_failure_envelopes false [] "medium" (fun _ => none) none).1 rfl,
   (C2_failure_envelopes false [] "medium" (fun _ => none) none).2 rfl⟩

/-- Claim C9: when the context-length precondition holds,
`generate_flashcards` issues exactly one batch client invocation and
returns success true with exactly the cards the parser extracted (possibly
none); every returned card duplicates its canonical `front`/`back` under
the alias `question`/`answer` fields, and all fields are non-empty trimmed
strings. -/
theorem C9_flashcards_single_call (chunks : List (Option String))
    (d : String) (fresp : Option (List PyVal))
    (hlen : 200 ≤ (assembleContext chunks).length) :
    generate_flashcards true chunks d fresp =
      [("success", PyVal.pbool true), ("difficulty", PyVal.pstr d),
       ("flashcards", PyVal.plist
         ((flashcards_from_context fresp).map cardToPy))] ∧
    (generate_flashcardsR true chunks d fresp).2.1 = 1 ∧
    ∀ c ∈ flashcards_from_context fresp,
      c.question = c.front ∧ c.answer = c.back ∧
      c.front ≠ "" ∧ c.back ≠ "" := by
  have hnlt : ¬ (assembleContext chunks).length < 200 := by omega
  have hf := generate_flashcardsR_ok chunks d fresp hnlt
  unfold generate_flashcards
  rw [hf]
  exact ⟨rfl, rfl, flashcards_from_context_kept fresp⟩

set_option maxRecDepth 10000 in
/-- Witness for C9 at a concrete batch of two parsed cards, one valid and
one with a whitespace-only back. -/
theorem C9_flashcards_single_call_witness :
    generate_flashcards true okChunks "medium" (some okBatch) =
      [("success", PyVal.pbool true), ("difficulty", PyVal.pstr "medium"),
       ("flashcards", PyVal.plist
         ((flashcards_from_context (some okBatch)).map cardToPy))] ∧
    (generate_flashcardsR true okChunks "medium" (some okBatch)).2.1 = 1 ∧
    ∀ c ∈ flashcards_from_context (some okBatch),
      c.question = c.front ∧ c.answer = c.back ∧
      c.front ≠ "" ∧ c.back ≠ "" :=
  C9_flashcards_single_call okChunks "medium" (some okBatch) (by decide)
